import Mathlib

/-!
Verification of the local re-simulation engine of the versus-simulator page.

The source is a React client component.  Its computational core consists of:
  * a sport-specific score rounding helper `roundScore`;
  * a rating projection (grade slider value to internal rating, rounded to
    2 decimal places);
  * a delta re-simulation effect that recomputes away/home scores, spread,
    total and win probabilities from a stored baseline whenever a slider
    differs from its baseline grade;
  * a team-matching fallback used when consuming the baseline simulation
    response.

JavaScript numbers are modelled by rationals for the score pipeline (all
operations there are field operations, `Math.round` and `Math.max`) and by
real numbers where `Math.exp` enters (win probabilities).  `Math.round`
rounds half toward positive infinity, which coincides with Mathlib's
`round` on `ℚ`.
-/

namespace Versus

/-- The sport union type of the page: `'nfl' | 'nba' | 'college-football' |
'college-basketball'`.  The slider-recompute effect receives a value of this
type, so the string `"cfb"` can never reach it. -/
inductive Sport
  | nfl
  | nba
  | collegeFootball
  | collegeBasketball
deriving DecidableEq

/-- String code of a sport, as passed to `roundScore`. -/
def sportCode : Sport → String
  | Sport.nfl => "nfl"
  | Sport.nba => "nba"
  | Sport.collegeFootball => "college-football"
  | Sport.collegeBasketball => "college-basketball"

/-- Embedding of the source helper `roundScore(score, sport)`: for football
codes, raw scores map to realistic increments; otherwise `Math.round`. -/
def roundScore (score : ℚ) (sport : String) : ℤ :=
  if sport = "cfb" ∨ sport = "nfl" ∨ sport = "college-football" then
    if score ≤ 2 then 0
    else if 2 < score ∧ score < 4.5 then 3
    else if 4.5 ≤ score ∧ score < 6 then 6
    else round score
  else round score

/-- Embedding of `Math.round(x * 100) / 100`: rounding to 2 decimal places. -/
def round2 (x : ℚ) : ℚ := (round (x * 100) : ℚ) / 100

/-- The slider grade span `newRange = 99 - 60` from the recompute effect. -/
def newRange : ℚ := 99 - 60

/-- Unrounded rating projection, e.g.
`(awayOffensiveNumericGrade - originalRatings.awayOffensiveNumericGrade) *
originalRatings.offensiveRange / newRange + originalRatings.awayOffensiveRating`. -/
def currentRating (grade baselineGrade scaleRange baselineRating : ℚ) : ℚ :=
  (grade - baselineGrade) * scaleRange / newRange + baselineRating

/-- Projected rating as used by the effect: the unrounded projection rounded
to 2 decimal places. -/
def projectRating (grade baselineGrade scaleRange baselineRating : ℚ) : ℚ :=
  round2 (currentRating grade baselineGrade scaleRange baselineRating)

/-- The `originalRatings` state captured from the baseline simulation
response. -/
structure OriginalRatings where
  awayOffensiveNumericGrade : ℚ
  awayOffensiveRating : ℚ
  awayDefensiveNumericGrade : ℚ
  awayDefensiveRating : ℚ
  homeOffensiveNumericGrade : ℚ
  homeOffensiveRating : ℚ
  homeDefensiveNumericGrade : ℚ
  homeDefensiveRating : ℚ
  offensiveRange : ℚ
  defensiveRange : ℚ
  homeFieldAdvantage : ℚ
deriving DecidableEq

/-- The four live slider grades. -/
structure SliderState where
  awayOff : ℚ
  awayDef : ℚ
  homeOff : ℚ
  homeDef : ℚ
deriving DecidableEq

/-- Slider state in which every grade equals its baseline grade. -/
def baselineSliders (r : OriginalRatings) : SliderState :=
  { awayOff := r.awayOffensiveNumericGrade
    awayDef := r.awayDefensiveNumericGrade
    homeOff := r.homeOffensiveNumericGrade
    homeDef := r.homeDefensiveNumericGrade }

/-- Embedding of `const hfa = originalRatings.homeFieldAdvantage || 1.25`:
on rationals the only falsy number is `0`. -/
def hfaOf (r : OriginalRatings) : ℚ :=
  if r.homeFieldAdvantage = 0 then 1.25 else r.homeFieldAdvantage

/-- Score part of the slider-recompute effect, transliterated from the
source.  Returns the pair (awayScore, homeScore).  The effect first
short-circuits when no slider differs from its baseline grade; otherwise it
projects all four ratings, rounds them to 2 decimals, and applies the four
conditional single-variable update blocks in source order (away offense,
home offense, away defense, home defense), each block keeping the opposite
score unchanged.  The dead inner branch of each block (slider equal to
baseline inside a block guarded by the slider differing) is kept as in the
source. -/
def recomputeScores (r : OriginalRatings) (originalAwayScore originalHomeScore : ℚ)
    (s : SliderState) (sport : Sport) : ℚ × ℚ :=
  if s.awayOff = r.awayOffensiveNumericGrade ∧ s.awayDef = r.awayDefensiveNumericGrade ∧
      s.homeOff = r.homeOffensiveNumericGrade ∧ s.homeDef = r.homeDefensiveNumericGrade then
    (originalAwayScore, originalHomeScore)
  else
    let hfa := hfaOf r
    let roundedAwayOff := projectRating s.awayOff r.awayOffensiveNumericGrade r.offensiveRange r.awayOffensiveRating
    let roundedAwayDef := projectRating s.awayDef r.awayDefensiveNumericGrade r.defensiveRange r.awayDefensiveRating
    let roundedHomeOff := projectRating s.homeOff r.homeOffensiveNumericGrade r.offensiveRange r.homeOffensiveRating
    let roundedHomeDef := projectRating s.homeDef r.homeDefensiveNumericGrade r.defensiveRange r.homeDefensiveRating
    let calculatedOriginalAway := r.awayOffensiveRating - r.homeDefensiveRating + hfa
    let calculatedOriginalHome := r.homeOffensiveRating - r.awayDefensiveRating + hfa
    let awayScore0 := originalAwayScore
    let homeScore0 := originalHomeScore
    let awayScore1 :=
      if s.awayOff ≠ r.awayOffensiveNumericGrade then
        if s.awayOff = r.awayOffensiveNumericGrade then originalAwayScore
        else max 0 ((roundScore (originalAwayScore +
          ((roundedAwayOff - roundedHomeDef + hfa) - calculatedOriginalAway)) (sportCode sport) : ℤ) : ℚ)
      else awayScore0
    let homeScore1 :=
      if s.homeOff ≠ r.homeOffensiveNumericGrade then
        if s.homeOff = r.homeOffensiveNumericGrade then originalHomeScore
        else max 0 ((roundScore (originalHomeScore +
          ((roundedHomeOff - roundedAwayDef + hfa) - calculatedOriginalHome)) (sportCode sport) : ℤ) : ℚ)
      else homeScore0
    let homeScore2 :=
      if s.awayDef ≠ r.awayDefensiveNumericGrade then
        if s.awayDef = r.awayDefensiveNumericGrade then originalHomeScore
        else max 0 ((roundScore (originalHomeScore +
          ((roundedHomeOff - roundedAwayDef + hfa) - calculatedOriginalHome)) (sportCode sport) : ℤ) : ℚ)
      else homeScore1
    let awayScore2 :=
      if s.homeDef ≠ r.homeDefensiveNumericGrade then
        if s.homeDef = r.homeDefensiveNumericGrade then originalAwayScore
        else max 0 ((roundScore (originalAwayScore +
          ((roundedAwayOff - roundedHomeDef + hfa) - calculatedOriginalAway)) (sportCode sport) : ℤ) : ℚ)
      else awayScore1
    (awayScore2, homeScore2)

/-- Variant of `recomputeScores` with the two home-score update blocks
applied in the opposite order (away defense before home offense); used to
state order independence of the overlapping rules. -/
def recomputeScoresSwapOrder (r : OriginalRatings) (originalAwayScore originalHomeScore : ℚ)
    (s : SliderState) (sport : Sport) : ℚ × ℚ :=
  if s.awayOff = r.awayOffensiveNumericGrade ∧ s.awayDef = r.awayDefensiveNumericGrade ∧
      s.homeOff = r.homeOffensiveNumericGrade ∧ s.homeDef = r.homeDefensiveNumericGrade then
    (originalAwayScore, originalHomeScore)
  else
    let hfa := hfaOf r
    let roundedAwayOff := projectRating s.awayOff r.awayOffensiveNumericGrade r.offensiveRange r.awayOffensiveRating
    let roundedAwayDef := projectRating s.awayDef r.awayDefensiveNumericGrade r.defensiveRange r.awayDefensiveRating
    let roundedHomeOff := projectRating s.homeOff r.homeOffensiveNumericGrade r.offensiveRange r.homeOffensiveRating
    let roundedHomeDef := projectRating s.homeDef r.homeDefensiveNumericGrade r.defensiveRange r.homeDefensiveRating
    let calculatedOriginalAway := r.awayOffensiveRating - r.homeDefensiveRating + hfa
    let calculatedOriginalHome := r.homeOffensiveRating - r.awayDefensiveRating + hfa
    let awayScore0 := originalAwayScore
    let homeScore0 := originalHomeScore
    let awayScore1 :=
      if s.awayOff ≠ r.awayOffensiveNumericGrade then
        if s.awayOff = r.awayOffensiveNumericGrade then originalAwayScore
        else max 0 ((roundScore (originalAwayScore +
          ((roundedAwayOff - roundedHomeDef + hfa) - calculatedOriginalAway)) (sportCode sport) : ℤ) : ℚ)
      else awayScore0
    let homeScore1 :=
      if s.awayDef ≠ r.awayDefensiveNumericGrade then
        if s.awayDef = r.awayDefensiveNumericGrade then originalHomeScore
        else max 0 ((roundScore (originalHomeScore +
          ((roundedHomeOff - roundedAwayDef + hfa) - calculatedOriginalHome)) (sportCode sport) : ℤ) : ℚ)
      else homeScore0
    let homeScore2 :=
      if s.homeOff ≠ r.homeOffensiveNumericGrade then
        if s.homeOff = r.homeOffensiveNumericGrade then originalHomeScore
        else max 0 ((roundScore (originalHomeScore +
          ((roundedHomeOff - roundedAwayDef + hfa) - calculatedOriginalHome)) (sportCode sport) : ℤ) : ℚ)
      else homeScore1
    let awayScore2 :=
      if s.homeDef ≠ r.homeDefensiveNumericGrade then
        if s.homeDef = r.homeDefensiveNumericGrade then originalAwayScore
        else max 0 ((roundScore (originalAwayScore +
          ((roundedAwayOff - roundedHomeDef + hfa) - calculatedOriginalAway)) (sportCode sport) : ℤ) : ℚ)
      else awayScore1
    (awayScore2, homeScore2)

/-- The `k` sensitivity constant of the recompute path (lines 302-307 of the
source): default `0.13`, basketball codes `0.13`, football codes `0.15`. -/
def kFor (sport : Sport) : ℝ :=
  if sport = Sport.nba ∨ sport = Sport.collegeBasketball then 0.13
  else if sport = Sport.nfl ∨ sport = Sport.collegeFootball then 0.15
  else 0.13

/-- The published simulation result. -/
structure SimResult where
  away_score : ℚ
  home_score : ℚ
  spread : ℚ
  total : ℚ
  away_win_probability : ℝ
  home_win_probability : ℝ

/-- Full slider-recompute effect: on the short-circuit path (no slider
differs from baseline) it restores the original scores, recomputes spread
and total from them, and keeps the previous win probabilities; otherwise it
computes scores via `recomputeScores`, then spread, total and the logistic
win probabilities clamped to `[0.001, 0.999]`. -/
noncomputable def recompute (prev : SimResult) (r : OriginalRatings)
    (originalAwayScore originalHomeScore : ℚ) (s : SliderState) (sport : Sport) : SimResult :=
  if s.awayOff = r.awayOffensiveNumericGrade ∧ s.awayDef = r.awayDefensiveNumericGrade ∧
      s.homeOff = r.homeOffensiveNumericGrade ∧ s.homeDef = r.homeDefensiveNumericGrade then
    { away_score := originalAwayScore
      home_score := originalHomeScore
      spread := originalHomeScore - originalAwayScore
      total := originalAwayScore + originalHomeScore
      away_win_probability := prev.away_win_probability
      home_win_probability := prev.home_win_probability }
  else
    let p := recomputeScores r originalAwayScore originalHomeScore s sport
    let spread := p.2 - p.1
    let total := p.1 + p.2
    let homeWinProb : ℝ := 1 / (1 + Real.exp (-(kFor sport) * (spread : ℝ)))
    let home := max 0.001 (min 0.999 homeWinProb)
    let away := 1 - home
    { away_score := p.1
      home_score := p.2
      spread := spread
      total := total
      away_win_probability := away
      home_win_probability := home }

/-- Embedding of JavaScript `.toLowerCase()`: per-character lowercasing.
This agrees with `String.toLower` (which maps `Char.toLower` over the
string) but recurses structurally so that concrete instances evaluate. -/
def lowerStr (s : String) : String := String.mk (s.data.map Char.toLower)

/-- Selected team from the team catalog (`interface Team`): `name` is
required, `abbreviation` optional. -/
structure SelectedTeam where
  name : String
  abbreviation : Option String
deriving DecidableEq

/-- Element of the `team` array of the baseline simulation response, as far
as matching is concerned: all fields may be absent. -/
structure ApiTeam where
  name : Option String
  abbreviation : Option String
  venue : Option String
deriving DecidableEq

/-- The matching predicate of the first `teams.find(...)` call in
`runSimulation`: a single disjunction of exact name, case-insensitive name,
exact abbreviation and case-insensitive abbreviation.  JavaScript strict
equality on two absent fields is true, hence `Option` equality for the
abbreviation comparisons. -/
def matchesSelected (sel : SelectedTeam) (t : ApiTeam) : Bool :=
  t.name == some sel.name ||
  t.name.map lowerStr == some (lowerStr sel.name) ||
  t.abbreviation == sel.abbreviation ||
  t.abbreviation.map lowerStr == sel.abbreviation.map lowerStr

/-- Embedding of the away-team lookup in `runSimulation`:
`teams.find(nameOrAbbrMatch) || teams.find(t => t.venue === 'Away') || teams[0]`. -/
def awayTeamData (teams : List ApiTeam) (awayTeam : SelectedTeam) : Option ApiTeam :=
  match teams.find? (fun t => matchesSelected awayTeam t) with
  | some t => some t
  | none =>
    match teams.find? (fun t => t.venue == some "Away") with
    | some t => some t
    | none => teams.get? 0

/-- Embedding of the home-team lookup in `runSimulation`:
`teams.find(nameOrAbbrMatch) || teams.find(t => t.venue === 'Home') || teams[1]`. -/
def homeTeamData (teams : List ApiTeam) (homeTeam : SelectedTeam) : Option ApiTeam :=
  match teams.find? (fun t => matchesSelected homeTeam t) with
  | some t => some t
  | none =>
    match teams.find? (fun t => t.venue == some "Home") with
    | some t => some t
    | none => teams.get? 1

/-- Exact-name matching rule. -/
def exactNameRule (sel : SelectedTeam) (t : ApiTeam) : Bool :=
  t.name == some sel.name

/-- Case-insensitive name matching rule. -/
def ciNameRule (sel : SelectedTeam) (t : ApiTeam) : Bool :=
  t.name.map lowerStr == some (lowerStr sel.name)

/-- Exact-abbreviation matching rule. -/
def exactAbbrRule (sel : SelectedTeam) (t : ApiTeam) : Bool :=
  t.abbreviation == sel.abbreviation

/-- Case-insensitive abbreviation matching rule. -/
def ciAbbrRule (sel : SelectedTeam) (t : ApiTeam) : Bool :=
  t.abbreviation.map lowerStr == sel.abbreviation.map lowerStr

/-- Disjunction of the four name/abbreviation rules. -/
def anyNameAbbrRule (sel : SelectedTeam) (t : ApiTeam) : Bool :=
  exactNameRule sel t || ciNameRule sel t || exactAbbrRule sel t || ciAbbrRule sel t

/-- Modelled from the spec claim wording for comparison with the source
behavior: an ordered rule-priority chain that tries each rule on the whole
array before moving to the next rule (exact name, then case-insensitive
name, then exact abbreviation, then case-insensitive abbreviation, then
venue, then array position). -/
def specChainMatch (teams : List ApiTeam) (sel : SelectedTeam)
    (venueLabel : String) (idx : ℕ) : Option ApiTeam :=
  (teams.find? (exactNameRule sel)).orElse fun _ =>
  (teams.find? (ciNameRule sel)).orElse fun _ =>
  (teams.find? (exactAbbrRule sel)).orElse fun _ =>
  (teams.find? (ciAbbrRule sel)).orElse fun _ =>
  (teams.find? (fun t => t.venue == some venueLabel)).orElse fun _ =>
  teams.get? idx

/-- Baseline scores on which the recompute pipeline cannot decrease the away
score when the away-offense slider leaves its baseline: fixed points of the
sport rounding policy outside the collapsed football bands.  For football
codes these are 0, 3 and the integers from 6 up; otherwise any nonnegative
integer. -/
def stableScore (oa : ℚ) (sport : Sport) : Prop :=
  if sport = Sport.nfl ∨ sport = Sport.collegeFootball then
    oa = 0 ∨ oa = 3 ∨ ∃ n : ℤ, 6 ≤ n ∧ oa = (n : ℚ)
  else ∃ n : ℤ, 0 ≤ n ∧ oa = (n : ℚ)

/-- Concrete baseline ratings used for witnesses and counterexamples. -/
def rA : OriginalRatings :=
  { awayOffensiveNumericGrade := 75
    awayOffensiveRating := 10
    awayDefensiveNumericGrade := 75
    awayDefensiveRating := 5
    homeOffensiveNumericGrade := 75
    homeOffensiveRating := 9
    homeDefensiveNumericGrade := 75
    homeDefensiveRating := 8
    offensiveRange := 20
    defensiveRange := 20
    homeFieldAdvantage := 1.25 }

/-- Concrete baseline ratings with all ratings zero, used for the
probability counterexample. -/
def rB : OriginalRatings :=
  { awayOffensiveNumericGrade := 75
    awayOffensiveRating := 0
    awayDefensiveNumericGrade := 75
    awayDefensiveRating := 0
    homeOffensiveNumericGrade := 75
    homeOffensiveRating := 0
    homeDefensiveNumericGrade := 75
    homeDefensiveRating := 0
    offensiveRange := 20
    defensiveRange := 20
    homeFieldAdvantage := 1.25 }

/-- Placeholder previous result (its probabilities are irrelevant on the
non-short-circuit path). -/
def prev0 : SimResult :=
  { away_score := 0, home_score := 0, spread := 0, total := 0
    away_win_probability := 0, home_win_probability := 0 }

/-- Concrete selected team for the matching counterexample. -/
def selPhi : SelectedTeam := { name := "Eagles", abbreviation := some "PHI" }

/-- Response element matching `selPhi` only by exact abbreviation. -/
def tHawks : ApiTeam := { name := some "Hawks", abbreviation := some "PHI", venue := some "Home" }

/-- Response element matching `selPhi` by exact name. -/
def tEagles : ApiTeam := { name := some "Eagles", abbreviation := some "ATL", venue := some "Away" }

/-- Concrete slider state with the away-offense grade moved to 90. -/
def sW : SliderState := { baselineSliders rA with awayOff := 90 }

/-- Concrete slider state with the away-offense grade moved to 76 over the
zero-rating baseline. -/
def s8 : SliderState := { baselineSliders rB with awayOff := 76 }

/-- Concrete slider state in which both sliders affecting the home score
are moved. -/
def s10 : SliderState := { baselineSliders rA with homeOff := 90, awayDef := 60 }

theorem round_rat_mono {x y : ℚ} (h : x ≤ y) : round x ≤ round y := by
  rw [round_eq, round_eq]
  exact Int.floor_le_floor (by linarith)

theorem le_round_bound {n : ℤ} {x : ℚ} (h : (n : ℚ) ≤ x + 1 / 2) : n ≤ round x := by
  rw [round_eq]
  exact Int.le_floor.mpr h

theorem round_le_bound {n : ℤ} {x : ℚ} (h : x + 1 / 2 < (n : ℚ) + 1) : round x ≤ n := by
  rw [round_eq]
  have hlt : ⌊x + 1 / 2⌋ < n + 1 := Int.floor_lt.mpr (by push_cast; linarith)
  omega

theorem round2_mono {x y : ℚ} (h : x ≤ y) : round2 x ≤ round2 y := by
  unfold round2
  have h1 : round (x * 100) ≤ round (y * 100) := round_rat_mono (by linarith)
  have h2 : ((round (x * 100) : ℤ) : ℚ) ≤ ((round (y * 100) : ℤ) : ℚ) := by exact_mod_cast h1
  linarith

theorem round2_lower (x : ℚ) : x - 1 / 200 ≤ round2 x := by
  unfold round2
  have h := sub_half_lt_round (x * 100)
  linarith

theorem round2_upper (x : ℚ) : round2 x ≤ x + 1 / 200 := by
  unfold round2
  have h := round_le_add_half (x * 100)
  linarith

theorem roundScore_cases (c : String) (x : ℚ)
    (hc : c = "cfb" ∨ c = "nfl" ∨ c = "college-football") :
    (x ≤ 2 ∧ roundScore x c = 0) ∨
    (2 < x ∧ x < 4.5 ∧ roundScore x c = 3) ∨
    (4.5 ≤ x ∧ x < 6 ∧ roundScore x c = 6) ∨
    (6 ≤ x ∧ roundScore x c = round x) := by
  unfold roundScore
  rw [if_pos hc]
  split_ifs with h1 h2 h3
  · exact Or.inl ⟨h1, rfl⟩
  · exact Or.inr (Or.inl ⟨h2.1, h2.2, rfl⟩)
  · exact Or.inr (Or.inr (Or.inl ⟨h3.1, h3.2, rfl⟩))
  · have hx2 : 2 < x := not_le.mp h1
    have hx45 : 4.5 ≤ x := by
      by_contra hh
      exact h2 ⟨hx2, not_le.mp hh⟩
    have hx6 : 6 ≤ x := by
      by_contra hh
      exact h3 ⟨hx45, not_le.mp hh⟩
    exact Or.inr (Or.inr (Or.inr ⟨hx6, rfl⟩))

theorem roundScore_mono (c : String) {x y : ℚ} (h : x ≤ y) :
    roundScore x c ≤ roundScore y c := by
  by_cases hc : c = "cfb" ∨ c = "nfl" ∨ c = "college-football"
  · rcases roundScore_cases c x hc with ⟨hx, ex⟩ | ⟨hx1, hx2, ex⟩ | ⟨hx1, hx2, ex⟩ | ⟨hx, ex⟩ <;>
      rcases roundScore_cases c y hc with ⟨hy, ey⟩ | ⟨hy1, hy2, ey⟩ | ⟨hy1, hy2, ey⟩ | ⟨hy, ey⟩ <;>
      rw [ex, ey] <;>
      first
        | decide
        | (exact round_rat_mono h)
        | (apply le_round_bound; push_cast; linarith)
        | (exfalso; linarith)
  · unfold roundScore
    rw [if_neg hc, if_neg hc]
    exact round_rat_mono h

theorem currentRating_self (bg sr br : ℚ) : currentRating bg bg sr br = br := by
  unfold currentRating newRange
  norm_num

theorem currentRating_mono {g1 g2 : ℚ} (bg : ℚ) {sr : ℚ} (br : ℚ)
    (hsr : 0 ≤ sr) (h : g1 ≤ g2) :
    currentRating g1 bg sr br ≤ currentRating g2 bg sr br := by
  unfold currentRating newRange
  have hm : (g1 - bg) * sr ≤ (g2 - bg) * sr :=
    mul_le_mul_of_nonneg_right (by linarith) hsr
  norm_num
  linarith

theorem awayScore_char (r : OriginalRatings) (oa oh : ℚ) (s : SliderState) (sport : Sport) :
    (recomputeScores r oa oh s sport).1 =
      if s.awayOff = r.awayOffensiveNumericGrade ∧ s.homeDef = r.homeDefensiveNumericGrade then oa
      else
        max 0 ((roundScore (oa +
          ((projectRating s.awayOff r.awayOffensiveNumericGrade r.offensiveRange r.awayOffensiveRating
              - projectRating s.homeDef r.homeDefensiveNumericGrade r.defensiveRange r.homeDefensiveRating
              + hfaOf r)
            - (r.awayOffensiveRating - r.homeDefensiveRating + hfaOf r))) (sportCode sport) : ℤ) : ℚ) := by
  by_cases h1 : s.awayOff = r.awayOffensiveNumericGrade <;>
    by_cases h2 : s.awayDef = r.awayDefensiveNumericGrade <;>
    by_cases h3 : s.homeOff = r.homeOffensiveNumericGrade <;>
    by_cases h4 : s.homeDef = r.homeDefensiveNumericGrade <;>
    simp [recomputeScores, h1, h2, h3, h4]

theorem homeScore_char (r : OriginalRatings) (oa oh : ℚ) (s : SliderState) (sport : Sport) :
    (recomputeScores r oa oh s sport).2 =
      if s.homeOff = r.homeOffensiveNumericGrade ∧ s.awayDef = r.awayDefensiveNumericGrade then oh
      else
        max 0 ((roundScore (oh +
          ((projectRating s.homeOff r.homeOffensiveNumericGrade r.offensiveRange r.homeOffensiveRating
              - projectRating s.awayDef r.awayDefensiveNumericGrade r.defensiveRange r.awayDefensiveRating
              + hfaOf r)
            - (r.homeOffensiveRating - r.awayDefensiveRating + hfaOf r))) (sportCode sport) : ℤ) : ℚ) := by
  by_cases h1 : s.awayOff = r.awayOffensiveNumericGrade <;>
    by_cases h2 : s.awayDef = r.awayDefensiveNumericGrade <;>
    by_cases h3 : s.homeOff = r.homeOffensiveNumericGrade <;>
    by_cases h4 : s.homeDef = r.homeDefensiveNumericGrade <;>
    simp [recomputeScores, h1, h2, h3, h4]

theorem swapOrder_eq (r : OriginalRatings) (oa oh : ℚ) (s : SliderState) (sport : Sport) :
    recomputeScoresSwapOrder r oa oh s sport = recomputeScores r oa oh s sport := by
  by_cases h1 : s.awayOff = r.awayOffensiveNumericGrade <;>
    by_cases h2 : s.awayDef = r.awayDefensiveNumericGrade <;>
    by_cases h3 : s.homeOff = r.homeOffensiveNumericGrade <;>
    by_cases h4 : s.homeDef = r.homeDefensiveNumericGrade <;>
    simp [recomputeScores, recomputeScoresSwapOrder, h1, h2, h3, h4]

theorem sportCode_football (sport : Sport) :
    (sportCode sport = "cfb" ∨ sportCode sport = "nfl" ∨ sportCode sport = "college-football")
      ↔ (sport = Sport.nfl ∨ sport = Sport.collegeFootball) := by
  cases sport <;> decide

theorem stable_lower {oa δ : ℚ} {sport : Sport} (hs : stableScore oa sport)
    (hδ : -(1 / 100) ≤ δ) :
    oa ≤ max 0 ((roundScore (oa + δ) (sportCode sport) : ℤ) : ℚ) := by
  unfold stableScore at hs
  by_cases hf : sport = Sport.nfl ∨ sport = Sport.collegeFootball
  · rw [if_pos hf] at hs
    have hc : sportCode sport = "cfb" ∨ sportCode sport = "nfl" ∨
        sportCode sport = "college-football" := (sportCode_football sport).mpr hf
    rcases hs with h0 | h3 | ⟨n, hn6, hn⟩
    · subst h0
      exact le_max_left 0 _
    · subst h3
      rcases roundScore_cases (sportCode sport) (3 + δ) hc with
          ⟨hx, ex⟩ | ⟨hx1, hx2, ex⟩ | ⟨hx1, hx2, ex⟩ | ⟨hx, ex⟩ <;> rw [ex]
      · exfalso; linarith
      · rw [le_max_iff]; right; norm_num
      · rw [le_max_iff]; right; norm_num
      · rw [le_max_iff]; right
        have h6 : (6 : ℤ) ≤ round (3 + δ) := le_round_bound (by push_cast; linarith)
        have h6q : (6 : ℚ) ≤ ((round (3 + δ) : ℤ) : ℚ) := by exact_mod_cast h6
        linarith
    · subst hn
      have h6 : (6 : ℚ) ≤ (n : ℚ) := by exact_mod_cast hn6
      rcases roundScore_cases (sportCode sport) ((n : ℚ) + δ) hc with
          ⟨hx, ex⟩ | ⟨hx1, hx2, ex⟩ | ⟨hx1, hx2, ex⟩ | ⟨hx, ex⟩ <;> rw [ex]
      · exfalso; linarith
      · exfalso; linarith
      · rw [le_max_iff]; right
        have h7 : (n : ℚ) < 7 := by linarith
        have h7z : n < 7 := by exact_mod_cast h7
        have hn6z : n ≤ 6 := by omega
        have hn6q : (n : ℚ) ≤ 6 := by exact_mod_cast hn6z
        push_cast
        linarith
      · rw [le_max_iff]; right
        have hge : n ≤ round ((n : ℚ) + δ) := le_round_bound (by push_cast; linarith)
        exact_mod_cast hge
  · rw [if_neg hf] at hs
    obtain ⟨n, hn0, hn⟩ := hs
    subst hn
    have hc : ¬(sportCode sport = "cfb" ∨ sportCode sport = "nfl" ∨
        sportCode sport = "college-football") := fun hcc => hf ((sportCode_football sport).mp hcc)
    unfold roundScore
    rw [if_neg hc, le_max_iff]
    right
    have hge : n ≤ round ((n : ℚ) + δ) := le_round_bound (by push_cast; linarith)
    exact_mod_cast hge

theorem projectRating_mono {g1 g2 : ℚ} (bg : ℚ) {sr : ℚ} (br : ℚ)
    (hsr : 0 ≤ sr) (h : g1 ≤ g2) :
    projectRating g1 bg sr br ≤ projectRating g2 bg sr br :=
  round2_mono (currentRating_mono bg br hsr h)

theorem projectRating_self_lower (bg sr br : ℚ) :
    br - 1 / 200 ≤ projectRating bg bg sr br := by
  unfold projectRating
  rw [currentRating_self]
  exact round2_lower br

theorem projectRating_self_upper (bg sr br : ℚ) :
    projectRating bg bg sr br ≤ br + 1 / 200 := by
  unfold projectRating
  rw [currentRating_self]
  exact round2_upper br

theorem stable_upper {oa δ : ℚ} {sport : Sport} (hs : stableScore oa sport)
    (hδ : δ ≤ 1 / 100) :
    max 0 ((roundScore (oa + δ) (sportCode sport) : ℤ) : ℚ) ≤ oa := by
  unfold stableScore at hs
  by_cases hf : sport = Sport.nfl ∨ sport = Sport.collegeFootball
  · rw [if_pos hf] at hs
    have hc : sportCode sport = "cfb" ∨ sportCode sport = "nfl" ∨
        sportCode sport = "college-football" := (sportCode_football sport).mpr hf
    rcases hs with h0 | h3 | ⟨n, hn6, hn⟩
    · subst h0
      rcases roundScore_cases (sportCode sport) (0 + δ) hc with
          ⟨hx, ex⟩ | ⟨hx1, hx2, ex⟩ | ⟨hx1, hx2, ex⟩ | ⟨hx, ex⟩
      · rw [ex]; norm_num
      · exfalso; linarith
      · exfalso; linarith
      · exfalso; linarith
    · subst h3
      rcases roundScore_cases (sportCode sport) (3 + δ) hc with
          ⟨hx, ex⟩ | ⟨hx1, hx2, ex⟩ | ⟨hx1, hx2, ex⟩ | ⟨hx, ex⟩
      · rw [ex, max_le_iff]; norm_num
      · rw [ex, max_le_iff]; norm_num
      · exfalso; linarith
      · exfalso; linarith
    · subst hn
      have h6 : (6 : ℚ) ≤ (n : ℚ) := by exact_mod_cast hn6
      rcases roundScore_cases (sportCode sport) ((n : ℚ) + δ) hc with
          ⟨hx, ex⟩ | ⟨hx1, hx2, ex⟩ | ⟨hx1, hx2, ex⟩ | ⟨hx, ex⟩ <;> rw [ex, max_le_iff]
      · constructor <;> [linarith; (push_cast; linarith)]
      · constructor <;> [linarith; (push_cast; linarith)]
      · constructor <;> [linarith; (push_cast; linarith)]
      · have hle : round ((n : ℚ) + δ) ≤ n := round_le_bound (by push_cast; linarith)
        have hleq : ((round ((n : ℚ) + δ) : ℤ) : ℚ) ≤ (n : ℚ) := by exact_mod_cast hle
        constructor <;> linarith
  · rw [if_neg hf] at hs
    obtain ⟨n, hn0, hn⟩ := hs
    subst hn
    have h0 : (0 : ℚ) ≤ (n : ℚ) := by exact_mod_cast hn0
    have hc : ¬(sportCode sport = "cfb" ∨ sportCode sport = "nfl" ∨
        sportCode sport = "college-football") := fun hcc => hf ((sportCode_football sport).mp hcc)
    unfold roundScore
    rw [if_neg hc, max_le_iff]
    have hle : round ((n : ℚ) + δ) ≤ n := round_le_bound (by push_cast; linarith)
    have hleq : ((round ((n : ℚ) + δ) : ℤ) : ℚ) ≤ (n : ℚ) := by exact_mod_cast hle
    constructor <;> linarith

theorem awayScore_le_of_grade_le (r : OriginalRatings) (oa oh : ℚ) (s : SliderState)
    (sport : Sport) (g1 g2 : ℚ) (hR : 0 ≤ r.offensiveRange) (hs : stableScore oa sport)
    (h12 : g1 ≤ g2) :
    (recomputeScores r oa oh { s with awayOff := g1 } sport).1 ≤
    (recomputeScores r oa oh { s with awayOff := g2 } sport).1 := by
  rw [awayScore_char, awayScore_char]
  dsimp only
  have hPmono : projectRating g1 r.awayOffensiveNumericGrade r.offensiveRange r.awayOffensiveRating
      ≤ projectRating g2 r.awayOffensiveNumericGrade r.offensiveRange r.awayOffensiveRating :=
    projectRating_mono _ _ hR h12
  by_cases hhd : s.homeDef = r.homeDefensiveNumericGrade
  · by_cases hg1 : g1 = r.awayOffensiveNumericGrade
    · by_cases hg2 : g2 = r.awayOffensiveNumericGrade
      · rw [if_pos ⟨hg1, hhd⟩, if_pos ⟨hg2, hhd⟩]
      · rw [if_pos ⟨hg1, hhd⟩, if_neg (fun hh => hg2 hh.1)]
        apply stable_lower hs
        have hga : r.awayOffensiveNumericGrade ≤ g2 := by rw [← hg1]; exact h12
        have hP : projectRating r.awayOffensiveNumericGrade r.awayOffensiveNumericGrade
            r.offensiveRange r.awayOffensiveRating
            ≤ projectRating g2 r.awayOffensiveNumericGrade r.offensiveRange r.awayOffensiveRating :=
          projectRating_mono _ _ hR hga
        have hPl := projectRating_self_lower r.awayOffensiveNumericGrade r.offensiveRange
          r.awayOffensiveRating
        have hQ : projectRating s.homeDef r.homeDefensiveNumericGrade r.defensiveRange
            r.homeDefensiveRating ≤ r.homeDefensiveRating + 1 / 200 := by
          rw [hhd]
          exact projectRating_self_upper _ _ _
        linarith
    · by_cases hg2 : g2 = r.awayOffensiveNumericGrade
      · rw [if_neg (fun hh => hg1 hh.1), if_pos ⟨hg2, hhd⟩]
        apply stable_upper hs
        have hga : g1 ≤ r.awayOffensiveNumericGrade := by rw [← hg2]; exact h12
        have hP : projectRating g1 r.awayOffensiveNumericGrade r.offensiveRange r.awayOffensiveRating
            ≤ projectRating r.awayOffensiveNumericGrade r.awayOffensiveNumericGrade
              r.offensiveRange r.awayOffensiveRating :=
          projectRating_mono _ _ hR hga
        have hPu := projectRating_self_upper r.awayOffensiveNumericGrade r.offensiveRange
          r.awayOffensiveRating
        have hQ : r.homeDefensiveRating - 1 / 200 ≤ projectRating s.homeDef
            r.homeDefensiveNumericGrade r.defensiveRange r.homeDefensiveRating := by
          rw [hhd]
          exact projectRating_self_lower _ _ _
        linarith
      · rw [if_neg (fun hh => hg1 hh.1), if_neg (fun hh => hg2 hh.1)]
        apply max_le_max (le_refl (0 : ℚ))
        have hr := roundScore_mono (sportCode sport)
          (show oa + ((projectRating g1 r.awayOffensiveNumericGrade r.offensiveRange
              r.awayOffensiveRating - projectRating s.homeDef r.homeDefensiveNumericGrade
              r.defensiveRange r.homeDefensiveRating + hfaOf r)
            - (r.awayOffensiveRating - r.homeDefensiveRating + hfaOf r))
            ≤ oa + ((projectRating g2 r.awayOffensiveNumericGrade r.offensiveRange
              r.awayOffensiveRating - projectRating s.homeDef r.homeDefensiveNumericGrade
              r.defensiveRange r.homeDefensiveRating + hfaOf r)
            - (r.awayOffensiveRating - r.homeDefensiveRating + hfaOf r)) by linarith)
        exact_mod_cast hr
  · rw [if_neg (fun hh => hhd hh.2), if_neg (fun hh => hhd hh.2)]
    apply max_le_max (le_refl (0 : ℚ))
    have hr := roundScore_mono (sportCode sport)
      (show oa + ((projectRating g1 r.awayOffensiveNumericGrade r.offensiveRange
          r.awayOffensiveRating - projectRating s.homeDef r.homeDefensiveNumericGrade
          r.defensiveRange r.homeDefensiveRating + hfaOf r)
        - (r.awayOffensiveRating - r.homeDefensiveRating + hfaOf r))
        ≤ oa + ((projectRating g2 r.awayOffensiveNumericGrade r.offensiveRange
          r.awayOffensiveRating - projectRating s.homeDef r.homeDefensiveNumericGrade
          r.defensiveRange r.homeDefensiveRating + hfaOf r)
        - (r.awayOffensiveRating - r.homeDefensiveRating + hfaOf r)) by linarith)
    exact_mod_cast hr

/-- C1: for every baseline, recomputing with a slider state in which all
four grades equal their baseline grades returns exactly the baseline away
and home scores, with spread equal to home minus away and total equal to
away plus home. -/
theorem roundtrip_identity (prev : SimResult) (r : OriginalRatings) (oa oh : ℚ) (sport : Sport) :
    (recompute prev r oa oh (baselineSliders r) sport).away_score = oa ∧
    (recompute prev r oa oh (baselineSliders r) sport).home_score = oh ∧
    (recompute prev r oa oh (baselineSliders r) sport).spread = oh - oa ∧
    (recompute prev r oa oh (baselineSliders r) sport).total = oa + oh := by
  have h : (baselineSliders r).awayOff = r.awayOffensiveNumericGrade ∧
      (baselineSliders r).awayDef = r.awayDefensiveNumericGrade ∧
      (baselineSliders r).homeOff = r.homeOffensiveNumericGrade ∧
      (baselineSliders r).homeDef = r.homeDefensiveNumericGrade :=
    ⟨rfl, rfl, rfl, rfl⟩
  unfold recompute
  rw [if_pos h]
  exact ⟨rfl, rfl, rfl, rfl⟩

/-- C2: whenever the away-offense grade differs from its baseline grade,
the new away score is the baseline away score plus the delta between the
current-ratings formula and the baseline-ratings formula, floored at 0
through the sport rounding policy; the home score is unchanged when neither
home-offense nor away-defense moved; and recomputed scores are nonnegative
for all slider combinations in [60, 99] (given nonnegative baseline
scores). -/
theorem awayOffense_delta_rule (r : OriginalRatings) (oa oh : ℚ) (s : SliderState)
    (sport : Sport) (h : s.awayOff ≠ r.awayOffensiveNumericGrade) :
    (recomputeScores r oa oh s sport).1 =
      max 0 ((roundScore (oa +
        ((projectRating s.awayOff r.awayOffensiveNumericGrade r.offensiveRange r.awayOffensiveRating
            - projectRating s.homeDef r.homeDefensiveNumericGrade r.defensiveRange r.homeDefensiveRating
            + hfaOf r)
          - (r.awayOffensiveRating - r.homeDefensiveRating + hfaOf r))) (sportCode sport) : ℤ) : ℚ)
    ∧ (s.homeOff = r.homeOffensiveNumericGrade → s.awayDef = r.awayDefensiveNumericGrade →
        (recomputeScores r oa oh s sport).2 = oh)
    ∧ (0 ≤ oa → 0 ≤ oh → ∀ t : SliderState,
        60 ≤ t.awayOff → t.awayOff ≤ 99 → 60 ≤ t.awayDef → t.awayDef ≤ 99 →
        60 ≤ t.homeOff → t.homeOff ≤ 99 → 60 ≤ t.homeDef → t.homeDef ≤ 99 →
        0 ≤ (recomputeScores r oa oh t sport).1 ∧ 0 ≤ (recomputeScores r oa oh t sport).2) := by
  refine ⟨?_, ?_, ?_⟩
  · rw [awayScore_char, if_neg (fun hh => h hh.1)]
  · intro h3 h2
    rw [homeScore_char, if_pos ⟨h3, h2⟩]
  · intro ha hh t _ _ _ _ _ _ _ _
    constructor
    · rw [awayScore_char]
      split_ifs with hc
      · exact ha
      · exact le_max_left 0 _
    · rw [homeScore_char]
      split_ifs with hc
      · exact hh
      · exact le_max_left 0 _

/-- C2 witness at a concrete input: with the away-offense slider at 90 over
the concrete baseline, the home score is unchanged. -/
theorem awayOffense_delta_rule_witness :
    (recomputeScores rA 17 24 sW Sport.nfl).2 = 24 :=
  (awayOffense_delta_rule rA 17 24 sW Sport.nfl (by norm_num [sW, baselineSliders, rA])).2.1
    rfl rfl

/-- C3: the projected rating is the linear interpolation
(grade - baselineGrade) * scaleRange / 39 + baselineRating rounded to two
decimal places; the unrounded projection moves by scaleRange / 39 per grade
point, and the rounding stays within half a hundredth. -/
theorem rating_projection_formula (grade baselineGrade scaleRange baselineRating : ℚ) :
    projectRating grade baselineGrade scaleRange baselineRating
      = round2 ((grade - baselineGrade) * scaleRange / 39 + baselineRating)
    ∧ currentRating (grade + 1) baselineGrade scaleRange baselineRating
        - currentRating grade baselineGrade scaleRange baselineRating = scaleRange / 39
    ∧ |projectRating grade baselineGrade scaleRange baselineRating
        - currentRating grade baselineGrade scaleRange baselineRating| ≤ 1 / 200 := by
  refine ⟨?_, ?_, ?_⟩
  · norm_num [projectRating, currentRating, newRange]
  · unfold currentRating newRange
    norm_num
    ring
  · unfold projectRating
    have h1 := round2_lower (currentRating grade baselineGrade scaleRange baselineRating)
    have h2 := round2_upper (currentRating grade baselineGrade scaleRange baselineRating)
    rw [abs_le]
    constructor <;> linarith

/-- C5: for football codes the rounding maps scores at most 2 to 0, scores
strictly between 2 and 4.5 to 3, scores in [4.5, 6) to 6 and anything else
to the nearest integer; other codes always round to the nearest integer;
together with the concrete rounding table. -/
theorem roundScore_spec (x : ℚ) (c : String) :
    ((c = "cfb" ∨ c = "nfl" ∨ c = "college-football") →
      ((x ≤ 2 → roundScore x c = 0) ∧
       (2 < x → x < 4.5 → roundScore x c = 3) ∧
       (4.5 ≤ x → x < 6 → roundScore x c = 6) ∧
       (6 ≤ x → roundScore x c = round x)))
    ∧ (¬(c = "cfb" ∨ c = "nfl" ∨ c = "college-football") → roundScore x c = round x)
    ∧ roundScore 1.9 "nfl" = 0 ∧ roundScore 3 "nfl" = 3 ∧ roundScore 4.4 "nfl" = 3
    ∧ roundScore 5.9 "nfl" = 6 ∧ roundScore 10.2 "nfl" = 10 := by
  refine ⟨?_, ?_, ?_, ?_, ?_, ?_, ?_⟩
  · intro hc
    refine ⟨?_, ?_, ?_, ?_⟩
    · intro h1
      unfold roundScore
      rw [if_pos hc, if_pos h1]
    · intro h1 h2
      unfold roundScore
      rw [if_pos hc, if_neg (by linarith), if_pos ⟨h1, h2⟩]
    · intro h1 h2
      unfold roundScore
      rw [if_pos hc, if_neg (by linarith), if_neg (by rintro ⟨-, hh⟩; linarith),
        if_pos ⟨h1, h2⟩]
    · intro h1
      unfold roundScore
      rw [if_pos hc, if_neg (by linarith), if_neg (by rintro ⟨-, hh⟩; linarith),
        if_neg (by rintro ⟨-, hh⟩; linarith)]
  · intro hc
    unfold roundScore
    rw [if_neg hc]
  · norm_num [roundScore, round_eq]
  · norm_num [roundScore]
  · norm_num [roundScore]
  · norm_num [roundScore]
  · norm_num [roundScore, round_eq]

/-- C5 witness at a concrete input: the football branch of the rounding
table applied to 1.9. -/
theorem roundScore_spec_witness : roundScore 1.9 "nfl" = 0 :=
  ((roundScore_spec 1.9 "nfl").1 (Or.inr (Or.inl rfl))).1 (by norm_num)

/-- C7: the recompute pipeline is a pure function of the current slider
state, so whenever a slider sits exactly at its baseline grade (and the
other slider affecting the same side does too), that side of the score pair
is exactly the baseline score, independent of any intermediate states the
sliders passed through. -/
theorem reset_snap_back (r : OriginalRatings) (oa oh : ℚ) (s : SliderState) (sport : Sport) :
    (s.awayOff = r.awayOffensiveNumericGrade → s.homeDef = r.homeDefensiveNumericGrade →
      (recomputeScores r oa oh s sport).1 = oa)
    ∧ (s.homeOff = r.homeOffensiveNumericGrade → s.awayDef = r.awayDefensiveNumericGrade →
      (recomputeScores r oa oh s sport).2 = oh) := by
  constructor
  · intro h1 h4
    rw [awayScore_char, if_pos ⟨h1, h4⟩]
  · intro h3 h2
    rw [homeScore_char, if_pos ⟨h3, h2⟩]

/-- C7 witness at a concrete input: with only the home-offense slider
moved, the away score is exactly the baseline away score. -/
theorem reset_snap_back_witness :
    (recomputeScores rA 17 24 { baselineSliders rA with homeOff := (90 : ℚ) } Sport.nfl).1 = 17 :=
  (reset_snap_back rA 17 24 { baselineSliders rA with homeOff := (90 : ℚ) } Sport.nfl).1 rfl rfl

/-- C10: when both the home-offense and the away-defense grades differ from
their baselines, the final home score equals the single common update
expression (so applying either rule alone yields the same home score), and
swapping the order of the two home-score update blocks leaves the whole
result unchanged. -/
theorem overlapping_home_rules_agree (r : OriginalRatings) (oa oh : ℚ) (s : SliderState)
    (sport : Sport) (h3 : s.homeOff ≠ r.homeOffensiveNumericGrade)
    (h2 : s.awayDef ≠ r.awayDefensiveNumericGrade) :
    (recomputeScores r oa oh s sport).2 =
      max 0 ((roundScore (oh +
        ((projectRating s.homeOff r.homeOffensiveNumericGrade r.offensiveRange r.homeOffensiveRating
            - projectRating s.awayDef r.awayDefensiveNumericGrade r.defensiveRange r.awayDefensiveRating
            + hfaOf r)
          - (r.homeOffensiveRating - r.awayDefensiveRating + hfaOf r))) (sportCode sport) : ℤ) : ℚ)
    ∧ recomputeScoresSwapOrder r oa oh s sport = recomputeScores r oa oh s sport :=
  ⟨by rw [homeScore_char, if_neg (fun hh => h3 hh.1)], swapOrder_eq r oa oh s sport⟩

/-- C10 witness at a concrete input: both home-affecting sliders moved, and
the swapped-order variant agrees with the source order. -/
theorem overlapping_home_rules_agree_witness :
    recomputeScoresSwapOrder rA 17 24 s10 Sport.nfl = recomputeScores rA 17 24 s10 Sport.nfl :=
  (overlapping_home_rules_agree rA 17 24 s10 Sport.nfl
    (by norm_num [s10, baselineSliders, rA]) (by norm_num [s10, baselineSliders, rA])).2

/-- C6 counterexample: over the concrete football baseline with baseline
away score 1, moving the away-offense grade from its baseline 75 up to 76
drops the away score from 1 to 0, so increasing the grade strictly
decreases the away score. -/
theorem awayOff_monotonicity_counterexample :
    (60 : ℚ) ≤ 75 ∧ (75 : ℚ) < 76 ∧ (76 : ℚ) ≤ 99 ∧ (0 : ℚ) ≤ rA.offensiveRange ∧
    (recomputeScores rA 1 24 { baselineSliders rA with awayOff := (75 : ℚ) } Sport.nfl).1 = 1 ∧
    (recomputeScores rA 1 24 { baselineSliders rA with awayOff := (76 : ℚ) } Sport.nfl).1 = 0 ∧
    ¬ ((recomputeScores rA 1 24 { baselineSliders rA with awayOff := (75 : ℚ) } Sport.nfl).1 ≤
       (recomputeScores rA 1 24 { baselineSliders rA with awayOff := (76 : ℚ) } Sport.nfl).1) := by
  have e1 : (recomputeScores rA 1 24 { baselineSliders rA with awayOff := (75 : ℚ) } Sport.nfl).1
      = 1 := by
    norm_num [recomputeScores, baselineSliders, rA]
  have e2 : (recomputeScores rA 1 24 { baselineSliders rA with awayOff := (76 : ℚ) } Sport.nfl).1
      = 0 := by
    norm_num [recomputeScores, baselineSliders, rA, projectRating, currentRating, round2,
      roundScore, hfaOf, sportCode, newRange, round_eq, max_def]
  refine ⟨by norm_num, by norm_num, by norm_num, by norm_num [rA], e1, e2, ?_⟩
  rw [e1, e2]
  norm_num

/-- C6 amended: with a nonnegative offensive scale range and a baseline
away score that is a fixed point of the sport rounding policy (0, 3 or an
integer at least 6 for football codes; a nonnegative integer otherwise),
increasing the away-offense grade while holding the other three sliders
fixed never decreases the away score. -/
theorem awayOff_monotonicity_stable (r : OriginalRatings) (oa oh : ℚ) (s : SliderState)
    (sport : Sport) (g1 g2 : ℚ) (hR : 0 ≤ r.offensiveRange) (hs : stableScore oa sport)
    (hb1 : 60 ≤ g1) (h12 : g1 < g2) (hb2 : g2 ≤ 99) :
    (recomputeScores r oa oh { s with awayOff := g1 } sport).1 ≤
    (recomputeScores r oa oh { s with awayOff := g2 } sport).1 :=
  awayScore_le_of_grade_le r oa oh s sport g1 g2 hR hs h12.le

/-- C6 witness at a concrete input: a stable football baseline away score
of 24, grades 70 versus 80. -/
theorem awayOff_monotonicity_stable_witness :
    (recomputeScores rA 24 30 { baselineSliders rA with awayOff := (70 : ℚ) } Sport.nfl).1 ≤
    (recomputeScores rA 24 30 { baselineSliders rA with awayOff := (80 : ℚ) } Sport.nfl).1 :=
  awayOff_monotonicity_stable rA 24 30 (baselineSliders rA) Sport.nfl 70 80
    (by norm_num [rA])
    (by
      unfold stableScore
      rw [if_pos (Or.inl rfl)]
      exact Or.inr (Or.inr ⟨24, by norm_num, by norm_num⟩))
    (by norm_num) (by norm_num) (by norm_num)

theorem recompute_prob_eq (prev : SimResult) (r : OriginalRatings) (oa oh : ℚ)
    (s : SliderState) (sport : Sport)
    (h : ¬(s.awayOff = r.awayOffensiveNumericGrade ∧ s.awayDef = r.awayDefensiveNumericGrade ∧
        s.homeOff = r.homeOffensiveNumericGrade ∧ s.homeDef = r.homeDefensiveNumericGrade)) :
    (recompute prev r oa oh s sport).home_win_probability
      = max 0.001 (min 0.999 (1 / (1 + Real.exp (-(kFor sport) *
          ((recompute prev r oa oh s sport).spread : ℝ)))))
    ∧ (recompute prev r oa oh s sport).away_win_probability
      = 1 - (recompute prev r oa oh s sport).home_win_probability := by
  constructor <;> simp only [recompute, if_neg h]

theorem exp_nine_gt : (999 : ℝ) < Real.exp 9 := by
  have h1 : Real.exp 9 = Real.exp 1 ^ 9 := by
    rw [← Real.exp_nat_mul]
    norm_num
  rw [h1]
  have h2 : (2.7182818283 : ℝ) ^ 9 ≤ Real.exp 1 ^ 9 :=
    pow_le_pow_left₀ (by norm_num) Real.exp_one_gt_d9.le 9
  calc (999 : ℝ) < 2.7182818283 ^ 9 := by norm_num
    _ ≤ Real.exp 1 ^ 9 := h2

theorem logistic_nine : (0.999 : ℝ) < 1 / (1 + Real.exp (-9)) := by
  have hE : Real.exp (-9 : ℝ) < 1 / 999 := by
    rw [Real.exp_neg, show (1 : ℝ) / 999 = (999 : ℝ)⁻¹ by norm_num]
    exact inv_strictAnti₀ (by norm_num) exp_nine_gt
  have hpos : (0 : ℝ) < 1 + Real.exp (-9 : ℝ) := by positivity
  rw [lt_div_iff₀ hpos]
  nlinarith [hE]

/-- C4: on the recompute path, the home win probability is the clamped
logistic transform of the recomputed spread and the away win probability is
its complement, with sensitivity 0.15 for the football sport codes and 0.13
for the basketball sport codes (the default for this path is also 0.13). -/
theorem recompute_win_probability_formula (prev : SimResult) (r : OriginalRatings) (oa oh : ℚ)
    (s : SliderState) (sport : Sport)
    (h : ¬(s.awayOff = r.awayOffensiveNumericGrade ∧ s.awayDef = r.awayDefensiveNumericGrade ∧
        s.homeOff = r.homeOffensiveNumericGrade ∧ s.homeDef = r.homeDefensiveNumericGrade)) :
    (recompute prev r oa oh s sport).home_win_probability
      = max 0.001 (min 0.999 (1 / (1 + Real.exp (-(kFor sport) *
          ((recompute prev r oa oh s sport).spread : ℝ)))))
    ∧ (recompute prev r oa oh s sport).away_win_probability
      = 1 - (recompute prev r oa oh s sport).home_win_probability
    ∧ kFor Sport.nfl = 0.15 ∧ kFor Sport.collegeFootball = 0.15
    ∧ kFor Sport.nba = 0.13 ∧ kFor Sport.collegeBasketball = 0.13 := by
  refine ⟨(recompute_prob_eq prev r oa oh s sport h).1,
    (recompute_prob_eq prev r oa oh s sport h).2, ?_, ?_, ?_, ?_⟩
  · unfold kFor
    rw [if_neg (by decide), if_pos (by decide)]
  · unfold kFor
    rw [if_neg (by decide), if_pos (by decide)]
  · unfold kFor
    rw [if_pos (by decide)]
  · unfold kFor
    rw [if_pos (by decide)]

/-- C4 witness at a concrete input: complement relation of the two
probabilities with the away-offense slider at 90. -/
theorem recompute_win_probability_formula_witness :
    (recompute prev0 rA 17 24 sW Sport.nfl).away_win_probability
      = 1 - (recompute prev0 rA 17 24 sW Sport.nfl).home_win_probability :=
  (recompute_win_probability_formula prev0 rA 17 24 sW Sport.nfl
    (by norm_num [sW, baselineSliders, rA])).2.1

/-- C8 counterexample: over the zero-rating baseline with original scores
0 and 60 and the away-offense slider at 76, the recomputed spread is 60 and
the clamp is attained: the home win probability is exactly 0.999 and the
away win probability exactly 0.001, so neither lies strictly inside
(0.001, 0.999). -/
theorem probability_strict_bounds_counterexample :
    (recompute prev0 rB 0 60 s8 Sport.nfl).home_win_probability = 0.999 ∧
    (recompute prev0 rB 0 60 s8 Sport.nfl).away_win_probability = 0.001 ∧
    ¬ (0.001 < (recompute prev0 rB 0 60 s8 Sport.nfl).away_win_probability ∧
       (recompute prev0 rB 0 60 s8 Sport.nfl).away_win_probability < 0.999 ∧
       0.001 < (recompute prev0 rB 0 60 s8 Sport.nfl).home_win_probability ∧
       (recompute prev0 rB 0 60 s8 Sport.nfl).home_win_probability < 0.999) := by
  have hcond : ¬(s8.awayOff = rB.awayOffensiveNumericGrade ∧
      s8.awayDef = rB.awayDefensiveNumericGrade ∧
      s8.homeOff = rB.homeOffensiveNumericGrade ∧
      s8.homeDef = rB.homeDefensiveNumericGrade) := by
    norm_num [s8, baselineSliders, rB]
  have hscores : recomputeScores rB 0 60 s8 Sport.nfl = (0, 60) := by
    norm_num [recomputeScores, s8, baselineSliders, rB, projectRating, currentRating, round2,
      roundScore, hfaOf, sportCode, newRange, round_eq, max_def]
  have hspread : (recompute prev0 rB 0 60 s8 Sport.nfl).spread = 60 := by
    simp only [recompute, if_neg hcond, hscores]
    norm_num
  have hk : kFor Sport.nfl = 0.15 := by
    unfold kFor
    rw [if_neg (by decide), if_pos (by decide)]
  have hhome : (recompute prev0 rB 0 60 s8 Sport.nfl).home_win_probability = 0.999 := by
    rw [(recompute_prob_eq prev0 rB 0 60 s8 Sport.nfl hcond).1, hspread, hk]
    rw [show (-(0.15 : ℝ) * ((60 : ℚ) : ℝ)) = -9 by push_cast; norm_num]
    rw [min_eq_left logistic_nine.le]
    norm_num
  have haway : (recompute prev0 rB 0 60 s8 Sport.nfl).away_win_probability = 0.001 := by
    rw [(recompute_prob_eq prev0 rB 0 60 s8 Sport.nfl hcond).2, hhome]
    norm_num
  refine ⟨hhome, haway, ?_⟩
  rw [hhome, haway]
  intro hcontra
  exact lt_irrefl _ hcontra.1

/-- C8 amended: on the recompute path the two win probabilities sum to 1
exactly and both lie in the closed interval [0.001, 0.999] (hence strictly
inside (0, 1)); the bounds 0.001 and 0.999 themselves are attained for
large spreads. -/
theorem probability_complementarity_clamped (prev : SimResult) (r : OriginalRatings) (oa oh : ℚ)
    (s : SliderState) (sport : Sport)
    (h : ¬(s.awayOff = r.awayOffensiveNumericGrade ∧ s.awayDef = r.awayDefensiveNumericGrade ∧
        s.homeOff = r.homeOffensiveNumericGrade ∧ s.homeDef = r.homeDefensiveNumericGrade)) :
    (recompute prev r oa oh s sport).away_win_probability
      + (recompute prev r oa oh s sport).home_win_probability = 1
    ∧ 0.001 ≤ (recompute prev r oa oh s sport).home_win_probability
    ∧ (recompute prev r oa oh s sport).home_win_probability ≤ 0.999
    ∧ 0.001 ≤ (recompute prev r oa oh s sport).away_win_probability
    ∧ (recompute prev r oa oh s sport).away_win_probability ≤ 0.999
    ∧ 0 < (recompute prev r oa oh s sport).home_win_probability
    ∧ (recompute prev r oa oh s sport).home_win_probability < 1
    ∧ 0 < (recompute prev r oa oh s sport).away_win_probability
    ∧ (recompute prev r oa oh s sport).away_win_probability < 1 := by
  obtain ⟨hh, ha⟩ := recompute_prob_eq prev r oa oh s sport h
  have h1 : (0.001 : ℝ) ≤ (recompute prev r oa oh s sport).home_win_probability := by
    rw [hh]
    exact le_max_left _ _
  have h2 : (recompute prev r oa oh s sport).home_win_probability ≤ 0.999 := by
    rw [hh]
    exact max_le (by norm_num) (min_le_left _ _)
  refine ⟨by rw [ha]; ring, h1, h2, ?_, ?_, ?_, ?_, ?_, ?_⟩ <;> linarith

/-- C8 amended witness at a concrete input: the probabilities sum to 1 with
the away-offense slider at 90. -/
theorem probability_complementarity_clamped_witness :
    (recompute prev0 rA 17 24 sW Sport.nfl).away_win_probability
      + (recompute prev0 rA 17 24 sW Sport.nfl).home_win_probability = 1 :=
  (probability_complementarity_clamped prev0 rA 17 24 sW Sport.nfl
    (by norm_num [sW, baselineSliders, rA])).1

/-- C9 counterexample: with the selected team Eagles/PHI and a response
array whose first element matches only by exact abbreviation while the
second matches by exact name, the source picks the first element (the four
name/abbreviation rules are a single disjunctive pass over the array),
whereas the claimed rule-priority chain would pick the second; the two
disagree. -/
theorem team_matching_chain_counterexample :
    awayTeamData [tHawks, tEagles] selPhi = some tHawks ∧
    specChainMatch [tHawks, tEagles] selPhi "Away" 0 = some tEagles ∧
    awayTeamData [tHawks, tEagles] selPhi ≠ specChainMatch [tHawks, tEagles] selPhi "Away" 0 := by
  refine ⟨by decide, by decide, by decide⟩

/-- C9 amended: the lookup is a three-stage fallback chain with
element-order priority inside the first stage: first the first element
matching any of the four name/abbreviation rules, else the first element
with the matching venue, else the element at the fallback array position
(0 for away, 1 for home). -/
theorem team_matching_three_stage (teams : List ApiTeam) (sel : SelectedTeam) :
    ((teams.find? (anyNameAbbrRule sel)).isSome →
      awayTeamData teams sel = teams.find? (anyNameAbbrRule sel) ∧
      homeTeamData teams sel = teams.find? (anyNameAbbrRule sel))
    ∧ (teams.find? (anyNameAbbrRule sel) = none →
      ((teams.find? (fun t => t.venue == some "Away")).isSome →
        awayTeamData teams sel = teams.find? (fun t => t.venue == some "Away"))
      ∧ (teams.find? (fun t => t.venue == some "Away") = none →
        awayTeamData teams sel = teams.get? 0)
      ∧ ((teams.find? (fun t => t.venue == some "Home")).isSome →
        homeTeamData teams sel = teams.find? (fun t => t.venue == some "Home"))
      ∧ (teams.find? (fun t => t.venue == some "Home") = none →
        homeTeamData teams sel = teams.get? 1)) := by
  have hpred : (fun t => matchesSelected sel t) = anyNameAbbrRule sel := by
    funext t
    rfl
  unfold awayTeamData homeTeamData
  rw [hpred]
  constructor
  · intro hsome
    obtain ⟨t, ht⟩ := Option.isSome_iff_exists.mp hsome
    rw [ht]
    exact ⟨rfl, rfl⟩
  · intro hnone
    rw [hnone]
    refine ⟨?_, ?_, ?_, ?_⟩
    · intro hsome
      obtain ⟨t, ht⟩ := Option.isSome_iff_exists.mp hsome
      rw [ht]
    · intro hvnone
      rw [hvnone]
    · intro hsome
      obtain ⟨t, ht⟩ := Option.isSome_iff_exists.mp hsome
      rw [ht]
    · intro hvnone
      rw [hvnone]

/-- C9 amended witness at a concrete input: a one-element array matching by
exact name is returned by the first stage. -/
theorem team_matching_three_stage_witness :
    awayTeamData [tEagles] selPhi = [tEagles].find? (anyNameAbbrRule selPhi) :=
  ((team_matching_three_stage [tEagles] selPhi).1 (by decide)).1

end Versus
